import Mathlib

/-!
Shallow embedding of `scripts/utils/tracker_parser.py` (tracker-module
binary format parser) and proofs about its signature detector, the seven
per-format header decoders, and the dispatcher.

Modelling conventions:
* A file is `Option Bytes`: `none` models an I/O failure while opening or
  reading (permissions, missing file); `some content` is the file's byte
  content, a `List Nat` of values `0..255`.
* Python `try ... except: return None` makes each decoder total with an
  `Option` result: any raising operation (out-of-range index `header[i]`,
  `struct.unpack` on a slice of the wrong size) is modelled in the `Option`
  monad, so an "exception" is `none`.
* Python slices `b[i:j]` never raise and may be short: `pySlice`.
* `struct.unpack("<H", b)[0]` requires exactly two bytes: `unpack16`.
* `bytes.decode("ascii", errors="ignore")` drops bytes >= 128.
* A Python dict record is an association list `List (String × Val)` in
  insertion order, so "key present with value None" (`Val.vNone`) is
  distinguishable from "key absent".
-/

namespace TrackerFmt

abbrev Bytes := List Nat

/-- Values that can appear in a metadata record: strings, integers,
booleans, lists of strings, and Python `None`. -/
inductive Val where
  | vStr (s : String)
  | vInt (n : Nat)
  | vBool (b : Bool)
  | vList (l : List String)
  | vNone
deriving DecidableEq, Repr

/-- A metadata record: a Python dict in insertion order. -/
abbrev Metadata := List (String × Val)

/-- Dict lookup (keys are unique by construction; first match). -/
def dictGet (m : Metadata) (k : String) : Option Val :=
  match m with
  | [] => none
  | (k2, v) :: t => if k2 = k then some v else dictGet t k

/-- Dict assignment `m[k] = v`: update in place if the key exists,
otherwise append at the end (Python dict semantics). -/
def dictSet (m : Metadata) (k : String) (v : Val) : Metadata :=
  match m with
  | [] => [(k, v)]
  | (k2, w) :: t => if k2 = k then (k2, v) :: t else (k2, w) :: dictSet t k v

/-- Lookup in an optional record, for stating facts about decoder output. -/
def optGet (r : Option Metadata) (k : String) : Option Val :=
  r.bind (fun m => dictGet m k)

/-- Python slice `l[a:b]` (never raises, clamps to the list length). -/
def pySlice (l : Bytes) (a b : Nat) : Bytes := (l.take b).drop a

/-- Python `bytes.startswith(sig)`. -/
def pyStartswith (l sig : Bytes) : Bool := decide (l.take sig.length = sig)

/-- `struct.unpack("<H", b)[0]`: little-endian 16-bit word; `struct.error`
(modelled as `none`) unless the argument is exactly two bytes. -/
def unpack16 (b : Bytes) : Option Nat :=
  match b with
  | [lo, hi] => some (lo + 256 * hi)
  | _ => none

/-- Bytes before the first NUL: `b.split(b"\x00")[0]`. -/
def beforeNul (bs : Bytes) : Bytes := bs.takeWhile (fun b => decide (b ≠ 0))

/-- `decode("ascii", errors="ignore")`: keep only bytes below 128. -/
def asciiIgnore (bs : Bytes) : Bytes := bs.filter (fun b => decide (b < 128))

/-- Python whitespace byte values stripped by `str.strip()`. -/
def pyWsp (b : Nat) : Bool := decide (b ∈ [32, 9, 10, 13, 11, 12])

/-- `str.strip()` at the byte level. -/
def stripB (bs : Bytes) : Bytes :=
  ((bs.dropWhile pyWsp).reverse.dropWhile pyWsp).reverse

/-- ASCII lowercase of a byte. -/
def lowerByte (b : Nat) : Nat := if 65 ≤ b ∧ b ≤ 90 then b + 32 else b

/-- ASCII uppercase of a byte. -/
def upperByte (b : Nat) : Nat := if 97 ≤ b ∧ b ≤ 122 then b - 32 else b

/-- Render a (filtered, ASCII-only) byte list as a `String`. -/
def toStr (bs : Bytes) : String := (bs.map Char.ofNat).asString

/-- The byte list of an ASCII string literal. -/
def strB (s : String) : Bytes := s.toList.map Char.toNat

/-- The common string-field pipeline `b.split(b"\x00")[0].decode("ascii",
errors="ignore").strip()`, kept at byte level. -/
def strFieldB (bs : Bytes) : Bytes := stripB (asciiIgnore (beforeNul bs))

/-- Same pipeline, producing the final string. -/
def strField (bs : Bytes) : String := toStr (strFieldB bs)

/-- `s if s else None` for a decoded string field. -/
def strOrNone (bs : Bytes) : Val :=
  if strFieldB bs = [] then Val.vNone else Val.vStr (strField bs)

/-- Zero-pad a rendered number to (at least) two characters. -/
def pad2 (s : String) : String := if s.length < 2 then "0" ++ s else s

/-- Lowercase hexadecimal rendering of a natural number. -/
def toHex (n : Nat) : String := (Nat.toDigits 16 n).asString

/-- Python f-string piece `{n:02d}`. -/
def dec2 (n : Nat) : String := pad2 (toString n)

/-- Python f-string piece `{n:02x}`. -/
def hex2 (n : Nat) : String := pad2 (toHex n)

/-- Python `pat in l` for byte strings: substring containment. -/
def hasSub (l pat : Bytes) : Bool := decide (pat <:+: l)

/-- Python `l.endswith(pat)` for byte strings. -/
def endsWithB (l pat : Bytes) : Bool := decide (pat <:+ l)

/-- File position after `f.read(k)` at position `p` in a file of `n` bytes:
reading past EOF returns fewer (possibly zero) bytes and leaves the
position clamped at `n` (or unchanged when already past it). -/
def rdAdvance (n p k : Nat) : Nat := if n ≤ p then p else min (p + k) n

/-- Maximum of a list, `max(l)` in Python: raises (`none`) on `[]`. -/
def listMax (l : Bytes) : Option Nat :=
  match l with
  | [] => none
  | h :: t => some (t.foldl max h)

/-- Position of the file cursor when the XM decoder reads its instrument
count: after `f.seek(60)` and `f.read(8)` in a file of `n` bytes. -/
def xmP5 (n : Nat) : Nat := rdAdvance n 60 8

/-- Cursor position for the XM flags read. -/
def xmP6 (n : Nat) : Nat := rdAdvance n (xmP5 n) 2

/-- Cursor position for the XM default-tempo read. -/
def xmP7 (n : Nat) : Nat := rdAdvance n (xmP6 n) 2

/-- Cursor position for the XM default-BPM read. -/
def xmP8 (n : Nat) : Nat := rdAdvance n (xmP7 n) 2

/-- Tool-name heuristic of the XM decoder: case-insensitive substring
search in the decoded module name. -/
def xmTrackerTool (mnB : Bytes) : String :=
  if hasSub ((strFieldB mnB).map lowerByte) (strB "openmpt") then "OpenMPT"
  else if hasSub ((strFieldB mnB).map lowerByte) (strB "milkytracker") then "MilkyTracker"
  else if hasSub ((strFieldB mnB).map lowerByte) (strB "modplug") then "ModPlug Tracker"
  else "FastTracker II"

/-- The record literal returned by `parse_xm_header`; `mnB` is the raw
20-byte module-name slice. -/
def mkXmRecord (mnB : Bytes)
    (version song_length num_channels num_patterns num_instruments flags
     default_tempo default_bpm : Nat) : Metadata :=
  [("format", .vStr "xm"),
   ("format_long", .vStr "Extended Module"),
   ("source_format_version", .vStr (toString (version / 256) ++ "." ++ dec2 (version % 256))),
   ("tracker_tools", .vList [xmTrackerTool mnB]),
   ("module_name", strOrNone mnB),
   ("channels", .vInt num_channels),
   ("patterns", .vInt num_patterns),
   ("instruments", .vInt num_instruments),
   ("song_length", .vInt song_length),
   ("default_tempo", .vInt default_tempo),
   ("default_bpm", .vInt default_bpm),
   ("linear_frequency", .vBool (decide (flags % 2 = 1)))]

/-- Embedding of `parse_xm_header`: a sequence of reads and seeks on the
file, with `struct.unpack` failures and I/O failure collapsing to `none`
via the function-wide `try/except`. Note the decoder reads its "song
length / channels / patterns" words from file offsets 60..68 (the 8 bytes
read after `f.seek(60)`). -/
def parse_xm (file : Option Bytes) : Option Metadata :=
  file.bind (fun content =>
    if pyStartswith (pySlice content 0 80) (strB "Extended Module: ") then
      (unpack16 (pySlice content 38 40)).bind (fun version =>
      (unpack16 (pySlice (pySlice content 60 68) 0 2)).bind (fun song_length =>
      (unpack16 (pySlice (pySlice content 60 68) 4 6)).bind (fun num_channels =>
      (unpack16 (pySlice (pySlice content 60 68) 6 8)).bind (fun num_patterns =>
      (unpack16 (pySlice content (xmP5 content.length) (xmP5 content.length + 2))).bind
        (fun num_instruments =>
      (unpack16 (pySlice content (xmP6 content.length) (xmP6 content.length + 2))).bind
        (fun flags =>
      (unpack16 (pySlice content (xmP7 content.length) (xmP7 content.length + 2))).bind
        (fun default_tempo =>
      (unpack16 (pySlice content (xmP8 content.length) (xmP8 content.length + 2))).bind
        (fun default_bpm =>
      some (mkXmRecord (pySlice (pySlice content 0 80) 17 37) version song_length
        num_channels num_patterns num_instruments flags default_tempo default_bpm)))))))))
    else none)

/-- The record literal returned by `parse_it_header`; `snB` is the raw
song-name slice. The channel count is the hardcoded constant 64. -/
def mkItRecord (snB : Bytes) (ord_num ins_num smp_num pat_num version
    global_volume initial_speed initial_tempo : Nat) : Metadata :=
  [("format", .vStr "it"),
   ("format_long", .vStr "Impulse Tracker"),
   ("source_format_version", .vStr (toString (version / 256) ++ "." ++ hex2 (version % 256))),
   ("tracker_tools", .vList ["Impulse Tracker"]),
   ("song_name", strOrNone snB),
   ("channels", .vInt 64),
   ("patterns", .vInt pat_num),
   ("instruments", .vInt ins_num),
   ("samples", .vInt smp_num),
   ("orders", .vInt ord_num),
   ("initial_speed", .vInt initial_speed),
   ("initial_tempo", .vInt initial_tempo),
   ("global_volume", .vInt global_volume)]

/-- Embedding of `parse_it_header` (header is the first 192 bytes). -/
def parse_it (file : Option Bytes) : Option Metadata :=
  file.bind (fun content =>
    if pyStartswith (pySlice content 0 192) (strB "IMPM") then
      (unpack16 (pySlice (pySlice content 0 192) 32 34)).bind (fun ord_num =>
      (unpack16 (pySlice (pySlice content 0 192) 34 36)).bind (fun ins_num =>
      (unpack16 (pySlice (pySlice content 0 192) 36 38)).bind (fun smp_num =>
      (unpack16 (pySlice (pySlice content 0 192) 38 40)).bind (fun pat_num =>
      (unpack16 (pySlice (pySlice content 0 192) 40 42)).bind (fun version =>
      ((pySlice content 0 192).get? 48).bind (fun global_volume =>
      ((pySlice content 0 192).get? 50).bind (fun initial_speed =>
      ((pySlice content 0 192).get? 51).bind (fun initial_tempo =>
      some (mkItRecord (pySlice (pySlice content 0 192) 4 30) ord_num ins_num smp_num
        pat_num version global_volume initial_speed initial_tempo)))))))))
    else none)

/-- Channel count of the MOD decoder, from the (ASCII-filtered) 4-byte
format tag: fixed tags, then a leading-digit `"NCHN"` pattern with
`ValueError` falling back to 4, default 4. -/
def modChannels (ftag : Bytes) : Nat :=
  if ftag = strB "M.K." ∨ ftag = strB "M!K!" ∨ ftag = strB "FLT4" then 4
  else if ftag = strB "6CHN" then 6
  else if ftag = strB "8CHN" then 8
  else if endsWithB ftag (strB "CHN") then
    match ftag with
    | c :: _ => if 48 ≤ c ∧ c ≤ 57 then c - 48 else 4
    | [] => 4
  else 4

/-- The record literal returned by `parse_mod_header`; `ftag` is the
ASCII-filtered format tag, `snB` the raw 20-byte song-name slice. -/
def mkModRecord (snB ftag : Bytes) (song_length max_pattern : Nat) : Metadata :=
  [("format", .vStr "mod"),
   ("format_long", .vStr "ProTracker Module"),
   ("source_format_version", .vStr "1.0"),
   ("tracker_tools", .vList ["ProTracker"]),
   ("song_name", strOrNone snB),
   ("channels", .vInt (modChannels ftag)),
   ("patterns", .vInt (max_pattern + 1)),
   ("samples", .vInt 31),
   ("song_length", .vInt song_length),
   ("format_tag", .vStr (toStr ftag))]

/-- Embedding of `parse_mod_header` (header is the first 1084 bytes).
There is no signature check; the only raising operations are
`header[950]` and `max()` applied to an empty order slice. -/
def parse_mod (file : Option Bytes) : Option Metadata :=
  file.bind (fun content =>
    ((pySlice content 0 1084).get? 950).bind (fun song_length =>
    (if 0 < song_length then
        listMax ((pySlice (pySlice content 0 1084) 952 1080).take song_length)
      else some 0).bind (fun max_pattern =>
    some (mkModRecord (pySlice (pySlice content 0 1084) 0 20)
      (asciiIgnore (pySlice (pySlice content 0 1084) 1080 1084)) song_length max_pattern))))

/-- The record literal returned by `parse_s3m_header`; `cset` is the
channel-settings slice (bytes 64..96 of the header). -/
def mkS3mRecord (snB cset : Bytes)
    (ord_num ins_num pat_num version global_volume initial_speed initial_tempo : Nat) :
    Metadata :=
  [("format", .vStr "s3m"),
   ("format_long", .vStr "ScreamTracker 3"),
   ("source_format_version", .vStr (toString (version / 4096) ++ "." ++ hex2 (version % 4096))),
   ("tracker_tools", .vList ["ScreamTracker 3"]),
   ("song_name", strOrNone snB),
   ("channels", .vInt ((cset.filter (fun c => decide (c ≠ 255 ∧ c < 32))).length)),
   ("patterns", .vInt pat_num),
   ("instruments", .vInt ins_num),
   ("orders", .vInt ord_num),
   ("initial_speed", .vInt initial_speed),
   ("initial_tempo", .vInt initial_tempo),
   ("global_volume", .vInt global_volume)]

/-- Embedding of `parse_s3m_header` (header is the first 96 bytes). -/
def parse_s3m (file : Option Bytes) : Option Metadata :=
  file.bind (fun content =>
    ((pySlice content 0 96).get? 28).bind (fun b28 =>
    if b28 ≠ 26 then none else
    (unpack16 (pySlice (pySlice content 0 96) 32 34)).bind (fun ord_num =>
    (unpack16 (pySlice (pySlice content 0 96) 34 36)).bind (fun ins_num =>
    (unpack16 (pySlice (pySlice content 0 96) 36 38)).bind (fun pat_num =>
    (unpack16 (pySlice (pySlice content 0 96) 40 42)).bind (fun version =>
    if pySlice (pySlice content 0 96) 44 48 ≠ strB "SCRM" then none else
    ((pySlice content 0 96).get? 48).bind (fun global_volume =>
    ((pySlice content 0 96).get? 49).bind (fun initial_speed =>
    ((pySlice content 0 96).get? 50).bind (fun initial_tempo =>
    some (mkS3mRecord (pySlice (pySlice content 0 96) 0 28)
      (pySlice (pySlice content 0 96) 64 96) ord_num ins_num pat_num version
      global_volume initial_speed initial_tempo))))))))))

/-- The record literal returned by `parse_mptm_header`; `cset` is the
channel-settings slice (empty for short headers). -/
def mkMptmRecord (snB cset : Bytes) (version_str : String)
    (ord_num ins_num smp_num pat_num initial_speed initial_tempo global_volume : Nat) :
    Metadata :=
  [("format", .vStr "mptm"),
   ("format_long", .vStr "OpenMPT Module"),
   ("source_format_version", .vStr version_str),
   ("tracker_tools", .vList ["OpenMPT"]),
   ("song_name", strOrNone snB),
   ("channels", .vInt
     (if 0 < (cset.filter (fun c => decide (c ≠ 255 ∧ c < 128))).length then
        (cset.filter (fun c => decide (c ≠ 255 ∧ c < 128))).length
      else 64)),
   ("patterns", .vInt pat_num),
   ("instruments", .vInt ins_num),
   ("samples", .vInt smp_num),
   ("orders", .vInt ord_num),
   ("initial_speed", .vInt initial_speed),
   ("initial_tempo", .vInt initial_tempo),
   ("global_volume", .vInt global_volume)]

/-- Embedding of `parse_mptm_header` (header is the first 192 bytes). -/
def parse_mptm (file : Option Bytes) : Option Metadata :=
  file.bind (fun content =>
    if pyStartswith (pySlice content 0 192) (strB "IMPM") ||
        pyStartswith (pySlice content 0 192) (strB "mptm") then
      (if pyStartswith (pySlice content 0 192) (strB "IMPM") then
        (unpack16 (pySlice (pySlice content 0 192) 40 42)).map (fun version =>
          if 544 ≤ version then "1.28+ (IT compatible)" else "1.28+")
       else some "1.28+").bind (fun version_str =>
      (unpack16 (pySlice (pySlice content 0 192) 32 34)).bind (fun ord_num =>
      (unpack16 (pySlice (pySlice content 0 192) 34 36)).bind (fun ins_num =>
      (unpack16 (pySlice (pySlice content 0 192) 36 38)).bind (fun smp_num =>
      (unpack16 (pySlice (pySlice content 0 192) 38 40)).bind (fun pat_num =>
      some (mkMptmRecord
        (pySlice (pySlice content 0 192) 4
          (if pyStartswith (pySlice content 0 192) (strB "mptm") then 32 else 30))
        (if 96 ≤ (pySlice content 0 192).length then pySlice (pySlice content 0 192) 64 96
         else [])
        version_str ord_num ins_num smp_num pat_num
        (((pySlice content 0 192).get? 50).getD 6)
        (((pySlice content 0 192).get? 51).getD 125)
        (((pySlice content 0 192).get? 48).getD 64)))))))
    else none)

/-- The record literal returned by `parse_ftm_header`. -/
def mkFtmRecord (version_str : String) : Metadata :=
  [("format", .vStr "ftm"),
   ("format_long", .vStr "FamiTracker Module"),
   ("source_format_version", .vStr version_str),
   ("tracker_tools", .vList ["FamiTracker"])]

/-- Embedding of `parse_ftm_header` (header is the first 100 bytes). -/
def parse_ftm (file : Option Bytes) : Option Metadata :=
  file.bind (fun content =>
    if hasSub (pySlice content 0 100) (strB "FamiTracker") ||
        hasSub (pySlice content 0 100) (strB "FTM") then
      some (mkFtmRecord
        (if hasSub (pySlice content 0 100) (strB "FamiTracker Module") then "0.4.x+"
         else "unknown"))
    else none)

/-- The record literal returned by `parse_nsf_header`; `snB`, `artB`,
`cprB` are the raw 32-byte name, artist and copyright slices. -/
def mkNsfRecord (snB artB cprB : Bytes) (version total_songs starting_song : Nat) :
    Metadata :=
  [("format", .vStr "nsf"),
   ("format_long", .vStr "NES Sound Format"),
   ("source_format_version", .vStr ("v" ++ toString version)),
   ("tracker_tools", .vList ["Various NES composers"]),
   ("song_name", strOrNone snB),
   ("artist", strOrNone artB),
   ("copyright", strOrNone cprB),
   ("total_songs", .vInt total_songs),
   ("starting_song", .vInt starting_song)]

/-- Embedding of `parse_nsf_header` (header is the first 128 bytes). -/
def parse_nsf (file : Option Bytes) : Option Metadata :=
  file.bind (fun content =>
    if pyStartswith (pySlice content 0 128) (strB "NESM\x1a") ||
        pyStartswith (pySlice content 0 128) (strB "NSFE") then
      ((pySlice content 0 128).get? 5).bind (fun version =>
      ((pySlice content 0 128).get? 6).bind (fun total_songs =>
      ((pySlice content 0 128).get? 7).bind (fun starting_song =>
      some (mkNsfRecord (pySlice (pySlice content 0 128) 14 46)
        (pySlice (pySlice content 0 128) 46 78) (pySlice (pySlice content 0 128) 78 110)
        version total_songs starting_song))))
    else none)

/-- The literal MOD format tags checked by the signature detector (note
`"M!K."`, which differs from the decoder's `"M!K!"`). -/
def modTags : List Bytes :=
  [strB "M.K.", strB "M!K.", strB "FLT4", strB "6CHN", strB "8CHN"]

/-- Embedding of `detect_format_by_signature`: reads the first 1084 bytes
and checks signatures in a fixed order, first match winning; `none` on no
match or on a read failure. -/
def detect_format_by_signature (file : Option Bytes) : Option String :=
  file.bind (fun content =>
    if pyStartswith (pySlice content 0 1084) (strB "Extended Module: ") then some "xm"
    else if pyStartswith (pySlice content 0 1084) (strB "IMPM") then some "it"
    else if 48 ≤ (pySlice content 0 1084).length ∧
        pySlice (pySlice content 0 1084) 44 48 = strB "SCRM" ∧
        (pySlice content 0 1084).get? 28 = some 26 then some "s3m"
    else if 1084 ≤ (pySlice content 0 1084).length ∧
        pySlice (pySlice content 0 1084) 1080 1084 ∈ modTags then some "mod"
    else if hasSub (pySlice content 0 1084) (strB "FamiTracker") ||
        hasSub (pySlice content 0 1084) (strB "FTM") then
      some "ftm"
    else if pyStartswith (pySlice content 0 1084) (strB "NESM\x1a") ||
        pyStartswith (pySlice content 0 1084) (strB "NSFE") then
      some "nsf"
    else none)

/-- The static extension-to-long-name table of the dispatcher's stub
fallback, with its `"Tracker Module"` default. -/
def formatLongName (ext : String) : String :=
  if ext = "it" then "Impulse Tracker"
  else if ext = "xm" then "Extended Module"
  else if ext = "mod" then "ProTracker Module"
  else if ext = "s3m" then "ScreamTracker 3"
  else if ext = "ftm" then "FamiTracker Module"
  else if ext = "nsf" then "NES Sound Format"
  else if ext = "mptm" then "OpenMPT Module"
  else if ext = "umx" then "Unreal Music Package"
  else if ext = "mt2" then "MadTracker 2"
  else if ext = "mdz" then "Compressed MOD"
  else if ext = "s3z" then "Compressed S3M"
  else if ext = "xmz" then "Compressed XM"
  else if ext = "itz" then "Compressed IT"
  else "Tracker Module"

/-- The minimal stub record the dispatcher returns when every decoding
tier fails. -/
def stubRecord (ext : String) : Metadata :=
  [("format", .vStr ext),
   ("format_long", .vStr (formatLongName ext)),
   ("source_format_version", .vStr "unknown"),
   ("tracker_tools", .vList ["Unknown"])]

/-- The `parsers` table of the dispatcher: lookup by format name. -/
def parserFor (name : String) : Option (Option Bytes → Option Metadata) :=
  if name = "xm" then some parse_xm
  else if name = "it" then some parse_it
  else if name = "mod" then some parse_mod
  else if name = "s3m" then some parse_s3m
  else if name = "mptm" then some parse_mptm
  else if name = "ftm" then some parse_ftm
  else if name = "nsf" then some parse_nsf
  else none

/-- ASCII `str.upper()`. -/
def strUpper (s : String) : String := toStr ((strB s).map upperByte)

/-- The `_note` text attached when the detected format disagrees with the
file extension. -/
def noteText (ext d : String) : String :=
  "File has ." ++ ext ++ " extension but is actually " ++ strUpper d ++ " format"

/-- The dispatcher's second tier: try the extension-named decoder, then
fall back to the stub. In the source this is the code after the
signature-tier block returns nothing. -/
def extractTier2 (file : Option Bytes) (ext : String) : Metadata :=
  match parserFor ext with
  | some p =>
    match p file with
    | some m => m
    | none => stubRecord ext
  | none => stubRecord ext

/-- Embedding of `extract_tracker_format_metadata`: signature tier first,
then extension tier, then the stub. `ext` stands for
`tracker_path.suffix.lower().lstrip(".")`, the lowercased extension of the
path without its dot. -/
def extract_tracker_format_metadata (file : Option Bytes) (ext : String) : Metadata :=
  match detect_format_by_signature file with
  | some d =>
    match parserFor d with
    | some p =>
      match p file with
      | some m =>
        if d ≠ ext then dictSet m "_note" (.vStr (noteText ext d)) else m
      | none => extractTier2 file ext
    | none => extractTier2 file ext
  | none => extractTier2 file ext

/-- Modelled from the spec text of the Signature Detector algorithm
(spec section 4.1 and claim C6): given the first 1084 bytes of the file,
check, in this fixed order and first match winning: the
`"Extended Module: "` prefix (xm), the `"IMPM"` prefix (it), `"SCRM"` at
44..48 together with `0x1A` at byte 28 (s3m), bytes 1080..1084 among the
five MOD tags provided the buffer is at least 1084 bytes long (mod), the
substring `"FamiTracker"` or `"FTM"` anywhere in the window (ftm), the
`"NESM\x1a"` or `"NSFE"` prefix (nsf); otherwise, or on any exception
while reading, `None`. -/
def detectSpec (file : Option Bytes) : Option String :=
  match file with
  | none => none
  | some content =>
    if pyStartswith (content.take 1084) (strB "Extended Module: ") then some "xm"
    else if pyStartswith (content.take 1084) (strB "IMPM") then some "it"
    else if (content.take 1084).get? 28 = some 26 ∧
        pySlice (content.take 1084) 44 48 = strB "SCRM" then some "s3m"
    else if 1084 ≤ content.length ∧
        pySlice (content.take 1084) 1080 1084 ∈ modTags then some "mod"
    else if hasSub (content.take 1084) (strB "FamiTracker") ||
        hasSub (content.take 1084) (strB "FTM") then some "ftm"
    else if pyStartswith (content.take 1084) (strB "NESM\x1a") ||
        pyStartswith (content.take 1084) (strB "NSFE") then some "nsf"
    else none

/-- Keys that can appear in a record produced by this component. -/
def allowedKey (k : String) : Bool :=
  decide (k ∈ ["format", "format_long", "source_format_version", "tracker_tools",
    "_note", "song_name", "channels", "patterns", "instruments", "samples",
    "orders", "song_length", "initial_speed", "initial_tempo", "global_volume",
    "format_tag", "linear_frequency", "artist", "copyright", "total_songs",
    "starting_song", "module_name", "default_tempo", "default_bpm"])

/-- Keys whose value may be Python `None` (empty decoded string fields). -/
def nullableKey (k : String) : Bool :=
  decide (k ∈ ["song_name", "module_name", "artist", "copyright"])

/-- One record entry is well-shaped. -/
def entryOK (kv : String × Val) : Bool :=
  allowedKey kv.1 &&
    (match kv.2 with
     | Val.vNone => nullableKey kv.1
     | _ => true)

/-- A record is well-shaped. -/
def recOK (m : Metadata) : Bool :=
  m.all entryOK && (dictGet m "format").isSome && (dictGet m "format_long").isSome

/-- All seven decoders fail on the given file. -/
def allNone (file : Option Bytes) : Prop :=
  parse_xm file = none ∧ parse_it file = none ∧ parse_mod file = none ∧
  parse_s3m file = none ∧ parse_mptm file = none ∧ parse_ftm file = none ∧
  parse_nsf file = none

/-- A 52-byte Impulse Tracker file: the `"IMPM"` signature followed by
zeros (in particular an empty song name). -/
def itFile : Bytes := strB "IMPM" ++ List.replicate 48 0

/-- A 96-byte ScreamTracker 3 file with an empty song name, `0x1A` at
offset 28, order/instrument/pattern counts 2/3/4, the version word
`0x1320` at offset 40, `"SCRM"` at offset 44, and 32 active channels. -/
def s3mFile : Bytes :=
  List.replicate 28 0 ++ [26, 0, 0, 0] ++ [2, 0, 3, 0, 4, 0, 0, 0] ++ [32, 19] ++ [0, 0] ++
    strB "SCRM" ++ [64, 6, 125] ++ List.replicate 13 0 ++ List.replicate 32 1

/-- A 96-byte buffer that satisfies the S3M byte layout (`0x1A` at 28,
`"SCRM"` at 44..48, decodable header) but starts with `"IMPM"`. -/
def impmS3mFile : Bytes :=
  strB "IMPM" ++ List.replicate 24 0 ++ [26] ++ List.replicate 15 0 ++ strB "SCRM" ++
    List.replicate 48 0

/-- An 80-byte file laid out per the documented XM header: 17-byte ID
text, 20-byte module name, `0x1A`, 20-byte tracker name, version 1.04 at
offset 58, header size 276 at offset 60, song length 1 at offset 64,
restart position 0 at 66, 4 channels at offset 68, 8 patterns at 70,
5 instruments at 72, flags 1 at 74, tempo 6 at 76, BPM 125 at 78. -/
def xmDocFile : Bytes :=
  strB "Extended Module: " ++ List.replicate 20 0 ++ [26] ++ strB "FastTracker v2.00   " ++
    [4, 1] ++ [20, 1, 0, 0] ++ [1, 0] ++ [0, 0] ++ [4, 0] ++ [8, 0] ++ [5, 0] ++ [1, 0] ++
    [6, 0] ++ [125, 0]

/-- A 1084-byte MOD file: song name `"song"`, song length 3 at offset
950, pattern-order bytes `[2, 0, 1, 0, ...]` at 952, tag `"M.K."` at
1080. -/
def modFile : Bytes :=
  strB "song" ++ List.replicate 946 0 ++ [3, 0] ++ [2, 0, 1] ++ List.replicate 125 0 ++
    strB "M.K."

/-! Helper lemmas about the byte primitives. -/

theorem pySlice_zero (l : Bytes) (b : Nat) : pySlice l 0 b = l.take b := by
  simp [pySlice]

theorem pySlice_take {b n : Nat} (l : Bytes) (a : Nat) (h : b ≤ n) :
    pySlice (l.take n) a b = pySlice l a b := by
  simp [pySlice, List.take_take, Nat.min_eq_left h]

theorem pyStartswith_length {l sig : Bytes} (h : pyStartswith l sig = true) :
    sig.length ≤ l.length := by
  simp only [pyStartswith, decide_eq_true_eq] at h
  have := congrArg List.length h
  simp only [List.length_take] at this
  omega

theorem pyStartswith_take {l sig : Bytes} (n : Nat) (h : sig.length ≤ n) :
    pyStartswith (l.take n) sig = pyStartswith l sig := by
  simp [pyStartswith, List.take_take, Nat.min_eq_left h]

theorem hasSub_length {l pat : Bytes} (h : hasSub l pat = true) :
    pat.length ≤ l.length := by
  simp only [hasSub, decide_eq_true_eq] at h
  exact h.length_le

/-! Record shape: every decoder (and the stub, and the `_note` step)
produces records whose keys come from a fixed set, with `format` and
`format_long` always present, and with `Val.vNone` only on the
string-valued name fields. -/

theorem stubRecord_recOK (ext : String) : recOK (stubRecord ext) = true := by
  rfl

theorem dictGet_dictSet_self (m : Metadata) (k : String) (v : Val) :
    dictGet (dictSet m k v) k = some v := by
  induction m with
  | nil => simp [dictSet, dictGet]
  | cons kv t ih =>
    obtain ⟨k2, w⟩ := kv
    by_cases hk : k2 = k
    · simp [dictSet, dictGet, hk]
    · simp [dictSet, dictGet, hk, ih]

theorem dictGet_dictSet_other (m : Metadata) (k k2 : String) (v : Val)
    (h : k2 ≠ k) : dictGet (dictSet m k v) k2 = dictGet m k2 := by
  induction m with
  | nil =>
    simp only [dictSet, dictGet]
    rw [if_neg (fun hh => h hh.symm)]
  | cons kv t ih =>
    obtain ⟨k3, w⟩ := kv
    by_cases hk : k3 = k
    · subst hk
      simp only [dictSet, if_pos rfl, dictGet]
      rw [if_neg (fun hh => h hh.symm), if_neg (fun hh => h hh.symm)]
    · simp only [dictSet, if_neg hk, dictGet]
      by_cases hk2 : k3 = k2
      · simp [hk2]
      · simp [hk2, ih]

theorem recOK_dictSet_note (m : Metadata) (s : String)
    (h : recOK m = true) : recOK (dictSet m "_note" (Val.vStr s)) = true := by
  simp only [recOK, Bool.and_eq_true] at h ⊢
  refine ⟨⟨?_, ?_⟩, ?_⟩
  · have hall := h.1.1
    clear h
    induction m with
    | nil => simp [dictSet, entryOK, allowedKey]
    | cons kv t ih =>
      obtain ⟨k3, w⟩ := kv
      simp only [List.all_cons, Bool.and_eq_true] at hall
      by_cases hk : k3 = "_note"
      · simp only [dictSet, if_pos hk, List.all_cons, Bool.and_eq_true]
        subst hk
        exact ⟨by simp [entryOK, allowedKey], hall.2⟩
      · simp only [dictSet, if_neg hk, List.all_cons, Bool.and_eq_true]
        exact ⟨hall.1, ih hall.2⟩
  · rw [dictGet_dictSet_other _ _ _ _ (by decide)]
    exact h.1.2
  · rw [dictGet_dictSet_other _ _ _ _ (by decide)]
    exact h.2

theorem mkXmRecord_recOK (mnB : Bytes) (a b c d e f g h : Nat) :
    recOK (mkXmRecord mnB a b c d e f g h) = true := by
  unfold mkXmRecord
  simp only [strOrNone]
  split <;> rfl

theorem mkItRecord_recOK (snB : Bytes) (a b c d e f g h : Nat) :
    recOK (mkItRecord snB a b c d e f g h) = true := by
  unfold mkItRecord
  simp only [strOrNone]
  split <;> rfl

theorem mkModRecord_recOK (snB ftag : Bytes) (a b : Nat) :
    recOK (mkModRecord snB ftag a b) = true := by
  unfold mkModRecord
  simp only [strOrNone]
  split <;> rfl

theorem mkS3mRecord_recOK (snB cset : Bytes) (a b c d e f g : Nat) :
    recOK (mkS3mRecord snB cset a b c d e f g) = true := by
  unfold mkS3mRecord
  simp only [strOrNone]
  split <;> rfl

theorem mkMptmRecord_recOK (snB cset : Bytes) (vs : String) (a b c d e f g : Nat) :
    recOK (mkMptmRecord snB cset vs a b c d e f g) = true := by
  unfold mkMptmRecord
  simp only [strOrNone]
  split <;> rfl

theorem mkFtmRecord_recOK (vs : String) : recOK (mkFtmRecord vs) = true := by
  rfl

theorem mkNsfRecord_recOK (snB artB cprB : Bytes) (a b c : Nat) :
    recOK (mkNsfRecord snB artB cprB a b c) = true := by
  unfold mkNsfRecord
  simp only [strOrNone]
  split <;> split <;> split <;> rfl

theorem parse_xm_shape {file : Option Bytes} {m : Metadata} (h : parse_xm file = some m) :
    recOK m = true ∧ dictGet m "format" = some (.vStr "xm") ∧
    dictGet m "format_long" = some (.vStr "Extended Module") := by
  unfold parse_xm at h
  simp only [Option.bind_eq_some] at h
  obtain ⟨content, hfile, h⟩ := h
  split at h
  case isFalse => exact Option.noConfusion h
  case isTrue =>
    simp only [Option.bind_eq_some] at h
    obtain ⟨v1, h1, v2, h2, v3, h3, v4, h4, v5, h5, v6, h6, v7, h7, v8, h8, hm⟩ := h
    injection hm with hm
    subst hm
    exact ⟨mkXmRecord_recOK _ _ _ _ _ _ _ _ _, rfl, rfl⟩

theorem parse_it_shape {file : Option Bytes} {m : Metadata} (h : parse_it file = some m) :
    recOK m = true ∧ dictGet m "format" = some (.vStr "it") ∧
    dictGet m "format_long" = some (.vStr "Impulse Tracker") := by
  unfold parse_it at h
  simp only [Option.bind_eq_some] at h
  obtain ⟨content, hfile, h⟩ := h
  split at h
  case isFalse => exact Option.noConfusion h
  case isTrue =>
    simp only [Option.bind_eq_some] at h
    obtain ⟨v1, h1, v2, h2, v3, h3, v4, h4, v5, h5, v6, h6, v7, h7, v8, h8, hm⟩ := h
    injection hm with hm
    subst hm
    exact ⟨mkItRecord_recOK _ _ _ _ _ _ _ _ _, rfl, rfl⟩

theorem parse_mod_shape {file : Option Bytes} {m : Metadata} (h : parse_mod file = some m) :
    recOK m = true ∧ dictGet m "format" = some (.vStr "mod") ∧
    dictGet m "format_long" = some (.vStr "ProTracker Module") := by
  unfold parse_mod at h
  simp only [Option.bind_eq_some] at h
  obtain ⟨content, hfile, v1, h1, v2, h2, hm⟩ := h
  injection hm with hm
  subst hm
  exact ⟨mkModRecord_recOK _ _ _ _, rfl, rfl⟩

theorem parse_s3m_shape {file : Option Bytes} {m : Metadata} (h : parse_s3m file = some m) :
    recOK m = true ∧ dictGet m "format" = some (.vStr "s3m") ∧
    dictGet m "format_long" = some (.vStr "ScreamTracker 3") := by
  unfold parse_s3m at h
  simp only [Option.bind_eq_some] at h
  obtain ⟨content, hfile, b28, hb, h⟩ := h
  split at h
  case isTrue => exact Option.noConfusion h
  case isFalse =>
    simp only [Option.bind_eq_some] at h
    obtain ⟨v1, h1, v2, h2, v3, h3, v4, h4, h⟩ := h
    split at h
    case isTrue => exact Option.noConfusion h
    case isFalse =>
      simp only [Option.bind_eq_some] at h
      obtain ⟨v5, h5, v6, h6, v7, h7, hm⟩ := h
      injection hm with hm
      subst hm
      exact ⟨mkS3mRecord_recOK _ _ _ _ _ _ _ _ _, rfl, rfl⟩

theorem parse_mptm_shape {file : Option Bytes} {m : Metadata} (h : parse_mptm file = some m) :
    recOK m = true ∧ dictGet m "format" = some (.vStr "mptm") ∧
    dictGet m "format_long" = some (.vStr "OpenMPT Module") := by
  unfold parse_mptm at h
  simp only [Option.bind_eq_some] at h
  obtain ⟨content, hfile, h⟩ := h
  split at h
  case isFalse => exact Option.noConfusion h
  case isTrue =>
    simp only [Option.bind_eq_some] at h
    obtain ⟨vs, hvs, v1, h1, v2, h2, v3, h3, v4, h4, hm⟩ := h
    injection hm with hm
    subst hm
    exact ⟨mkMptmRecord_recOK _ _ _ _ _ _ _ _ _ _, rfl, rfl⟩

theorem parse_ftm_shape {file : Option Bytes} {m : Metadata} (h : parse_ftm file = some m) :
    recOK m = true ∧ dictGet m "format" = some (.vStr "ftm") ∧
    dictGet m "format_long" = some (.vStr "FamiTracker Module") := by
  unfold parse_ftm at h
  simp only [Option.bind_eq_some] at h
  obtain ⟨content, hfile, h⟩ := h
  split at h
  case isFalse => exact Option.noConfusion h
  case isTrue =>
    injection h with h
    subst h
    exact ⟨mkFtmRecord_recOK _, rfl, rfl⟩

theorem parse_nsf_shape {file : Option Bytes} {m : Metadata} (h : parse_nsf file = some m) :
    recOK m = true ∧ dictGet m "format" = some (.vStr "nsf") ∧
    dictGet m "format_long" = some (.vStr "NES Sound Format") := by
  unfold parse_nsf at h
  simp only [Option.bind_eq_some] at h
  obtain ⟨content, hfile, h⟩ := h
  split at h
  case isFalse => exact Option.noConfusion h
  case isTrue =>
    simp only [Option.bind_eq_some] at h
    obtain ⟨v1, h1, v2, h2, v3, h3, hm⟩ := h
    injection hm with hm
    subst hm
    exact ⟨mkNsfRecord_recOK _ _ _ _ _ _, rfl, rfl⟩

/-! Dispatcher-level lemmas. -/

theorem parserFor_shape {name : String} {p : Option Bytes → Option Metadata}
    (hp : parserFor name = some p) {file : Option Bytes} {m : Metadata}
    (hm : p file = some m) :
    recOK m = true ∧ dictGet m "format" = some (.vStr name) := by
  unfold parserFor at hp
  split_ifs at hp with e1 e2 e3 e4 e5 e6 e7
  · injection hp with hp; subst hp
    exact ⟨(parse_xm_shape hm).1, by rw [e1]; exact (parse_xm_shape hm).2.1⟩
  · injection hp with hp; subst hp
    exact ⟨(parse_it_shape hm).1, by rw [e2]; exact (parse_it_shape hm).2.1⟩
  · injection hp with hp; subst hp
    exact ⟨(parse_mod_shape hm).1, by rw [e3]; exact (parse_mod_shape hm).2.1⟩
  · injection hp with hp; subst hp
    exact ⟨(parse_s3m_shape hm).1, by rw [e4]; exact (parse_s3m_shape hm).2.1⟩
  · injection hp with hp; subst hp
    exact ⟨(parse_mptm_shape hm).1, by rw [e5]; exact (parse_mptm_shape hm).2.1⟩
  · injection hp with hp; subst hp
    exact ⟨(parse_ftm_shape hm).1, by rw [e6]; exact (parse_ftm_shape hm).2.1⟩
  · injection hp with hp; subst hp
    exact ⟨(parse_nsf_shape hm).1, by rw [e7]; exact (parse_nsf_shape hm).2.1⟩

theorem parserFor_none {name : String} {p : Option Bytes → Option Metadata}
    (hp : parserFor name = some p) {file : Option Bytes} (hall : allNone file) :
    p file = none := by
  obtain ⟨h1, h2, h3, h4, h5, h6, h7⟩ := hall
  unfold parserFor at hp
  split_ifs at hp <;> (injection hp with hp; subst hp; assumption)

theorem extractTier2_recOK (file : Option Bytes) (ext : String) :
    recOK (extractTier2 file ext) = true := by
  unfold extractTier2
  cases hp : parserFor ext with
  | none => exact stubRecord_recOK ext
  | some p =>
    simp only []
    cases hm : p file with
    | none => exact stubRecord_recOK ext
    | some m => exact (parserFor_shape hp hm).1

theorem extract_recOK (file : Option Bytes) (ext : String) :
    recOK (extract_tracker_format_metadata file ext) = true := by
  unfold extract_tracker_format_metadata
  cases hdet : detect_format_by_signature file with
  | none => exact extractTier2_recOK file ext
  | some d =>
    simp only []
    cases hp : parserFor d with
    | none => exact extractTier2_recOK file ext
    | some p =>
      simp only []
      cases hm : p file with
      | none => exact extractTier2_recOK file ext
      | some m =>
        simp only []
        by_cases hd : d ≠ ext
        · rw [if_pos hd]
          exact recOK_dictSet_note _ _ (parserFor_shape hp hm).1
        · rw [if_neg hd]
          exact (parserFor_shape hp hm).1

theorem extractTier2_eq_stub {file : Option Bytes} (ext : String)
    (hall : allNone file) : extractTier2 file ext = stubRecord ext := by
  unfold extractTier2
  cases hp : parserFor ext with
  | none => rfl
  | some p =>
    simp only []
    rw [parserFor_none hp hall]

theorem extract_eq_stub {file : Option Bytes} (ext : String) (hall : allNone file) :
    extract_tracker_format_metadata file ext = stubRecord ext := by
  unfold extract_tracker_format_metadata
  cases hdet : detect_format_by_signature file with
  | none => exact extractTier2_eq_stub ext hall
  | some d =>
    simp only []
    cases hp : parserFor d with
    | none => exact extractTier2_eq_stub ext hall
    | some p =>
      simp only []
      rw [parserFor_none hp hall]
      exact extractTier2_eq_stub ext hall

/-! Detector lemmas. -/

theorem pySlice_length (l : Bytes) (a b : Nat) :
    (pySlice l a b).length = min b l.length - a := by
  simp [pySlice]

theorem pyStartswith_take_eq {l sig : Bytes} (h : pyStartswith l sig = true) :
    l.take sig.length = sig := by
  simpa [pyStartswith] using h

theorem pyStartswith_pySlice0 (l sig : Bytes) {n : Nat} (h : sig.length ≤ n) :
    pyStartswith (pySlice l 0 n) sig = pyStartswith l sig := by
  rw [pySlice_zero, pyStartswith_take _ h]

theorem not_xm_of_impm {content : Bytes}
    (h : pyStartswith content (strB "IMPM") = true) :
    pyStartswith content (strB "Extended Module: ") = false := by
  by_contra hb
  rw [Bool.not_eq_false] at hb
  have h4 : content.take 4 = strB "IMPM" := pyStartswith_take_eq h
  have h17 : content.take 17 = strB "Extended Module: " := pyStartswith_take_eq hb
  have hc : content.take 4 = (strB "Extended Module: ").take 4 := by
    rw [← h17, List.take_take]
    norm_num
  rw [h4] at hc
  exact absurd hc (by decide)

theorem detect_impm {content : Bytes}
    (h : pyStartswith content (strB "IMPM") = true) :
    detect_format_by_signature (some content) = some "it" := by
  have h2 : pyStartswith (pySlice content 0 1084) (strB "IMPM") = true := by
    rw [pyStartswith_pySlice0 _ _ (by decide)]
    exact h
  have hxm : pyStartswith (pySlice content 0 1084) (strB "Extended Module: ") = false := by
    rw [pyStartswith_pySlice0 _ _ (by decide)]
    exact not_xm_of_impm h
  unfold detect_format_by_signature
  simp only [Option.some_bind, hxm, h2]
  rfl

theorem detect_mem {file : Option Bytes} {d : String}
    (h : detect_format_by_signature file = some d) :
    d = "xm" ∨ d = "it" ∨ d = "s3m" ∨ d = "mod" ∨ d = "ftm" ∨ d = "nsf" := by
  cases file with
  | none => exact Option.noConfusion h
  | some content =>
    unfold detect_format_by_signature at h
    simp only [Option.some_bind] at h
    split at h
    · exact Or.inl (Option.some_inj.mp h).symm
    · split at h
      · exact Or.inr (Or.inl (Option.some_inj.mp h).symm)
      · split at h
        · exact Or.inr (Or.inr (Or.inl (Option.some_inj.mp h).symm))
        · split at h
          · exact Or.inr (Or.inr (Or.inr (Or.inl (Option.some_inj.mp h).symm)))
          · split at h
            · exact Or.inr (Or.inr (Or.inr (Or.inr (Or.inl (Option.some_inj.mp h).symm))))
            · split at h
              · exact Or.inr (Or.inr (Or.inr (Or.inr (Or.inr (Option.some_inj.mp h).symm))))
              · exact Option.noConfusion h

/-- The facts forced by a successful S3M decode: byte 28 is `0x1A`,
`"SCRM"` sits at 44..48, the file is at least 51 bytes long, and the
version field of the record is rendered from the word at offset 40 with a
`>> 12` / `& 0xFFF` split. -/
theorem parse_s3m_inv {content : Bytes} {m : Metadata}
    (h : parse_s3m (some content) = some m) :
    (pySlice content 0 96).get? 28 = some 26 ∧
    pySlice (pySlice content 0 96) 44 48 = strB "SCRM" ∧
    51 ≤ content.length ∧
    ∃ version, unpack16 (pySlice (pySlice content 0 96) 40 42) = some version ∧
      dictGet m "source_format_version" =
        some (.vStr (toString (version / 4096) ++ "." ++ hex2 (version % 4096))) := by
  unfold parse_s3m at h
  simp only [Option.bind_eq_some] at h
  obtain ⟨content2, hc2, b28, hb, h⟩ := h
  injection hc2 with hc2
  subst hc2
  split at h
  case isTrue => exact Option.noConfusion h
  case isFalse hne =>
    have hb28 : b28 = 26 := by omega
    subst hb28
    simp only [Option.bind_eq_some] at h
    obtain ⟨v1, h1, v2, h2, v3, h3, v4, h4, h⟩ := h
    split at h
    case isTrue => exact Option.noConfusion h
    case isFalse hscrm =>
      simp only [Option.bind_eq_some] at h
      obtain ⟨v5, h5, v6, h6, v7, h7, hm⟩ := h
      injection hm with hm
      subst hm
      have hlen : 51 ≤ content.length := by
        have h50 := List.get?_eq_some.mp h7
        obtain ⟨hlt, _⟩ := h50
        rw [pySlice_length] at hlt
        omega
      refine ⟨hb, not_ne_iff.mp hscrm, hlen, v4, h4, rfl⟩

/-- When neither the XM nor the IMPM prefix matches but the S3M layout
conditions hold at an at-least-51-byte file, the detector answers s3m. -/
theorem detect_s3m {content : Bytes}
    (hxm : pyStartswith content (strB "Extended Module: ") = false)
    (himpm : pyStartswith content (strB "IMPM") = false)
    (h28 : (pySlice content 0 96).get? 28 = some 26)
    (hscrm : pySlice (pySlice content 0 96) 44 48 = strB "SCRM")
    (hlen : 51 ≤ content.length) :
    detect_format_by_signature (some content) = some "s3m" := by
  have hxm2 : pyStartswith (pySlice content 0 1084) (strB "Extended Module: ") = false := by
    rw [pyStartswith_pySlice0 _ _ (by decide)]; exact hxm
  have himpm2 : pyStartswith (pySlice content 0 1084) (strB "IMPM") = false := by
    rw [pyStartswith_pySlice0 _ _ (by decide)]; exact himpm
  have h28b : (pySlice content 0 1084).get? 28 = some 26 := by
    rw [pySlice_zero] at h28 ⊢
    rw [List.get?_take (by omega : 28 < 1084)]
    rw [List.get?_take (by omega : 28 < 96)] at h28
    exact h28
  have hscrmb : pySlice (pySlice content 0 1084) 44 48 = strB "SCRM" := by
    rw [pySlice_zero] at hscrm ⊢
    rw [pySlice_take _ _ (by omega : 48 ≤ 1084)]
    rw [pySlice_take _ _ (by omega : 48 ≤ 96)] at hscrm
    exact hscrm
  have hlenb : 48 ≤ (pySlice content 0 1084).length := by
    rw [pySlice_length]
    omega
  unfold detect_format_by_signature
  simp only [Option.some_bind, hxm2, himpm2]
  rw [if_neg (by simp), if_neg (by simp), if_pos ⟨hlenb, hscrmb, h28b⟩]

theorem detect_eq_detectSpec (file : Option Bytes) :
    detect_format_by_signature file = detectSpec file := by
  cases file with
  | none => rfl
  | some content =>
    unfold detect_format_by_signature detectSpec
    simp only [Option.some_bind, pySlice_zero]
    have hs3m : (48 ≤ (content.take 1084).length ∧
        pySlice (content.take 1084) 44 48 = strB "SCRM" ∧
        (content.take 1084).get? 28 = some 26) ↔
        ((content.take 1084).get? 28 = some 26 ∧
        pySlice (content.take 1084) 44 48 = strB "SCRM") := by
      constructor
      · rintro ⟨_, hpx, h28⟩
        exact ⟨h28, hpx⟩
      · rintro ⟨h28, hpx⟩
        refine ⟨?_, hpx, h28⟩
        have hle := congrArg List.length hpx
        rw [pySlice_length] at hle
        have h4 : (strB "SCRM").length = 4 := by decide
        rw [h4] at hle
        omega
    have hmod : (1084 ≤ (content.take 1084).length ∧
        pySlice (content.take 1084) 1080 1084 ∈ modTags) ↔
        (1084 ≤ content.length ∧ pySlice (content.take 1084) 1080 1084 ∈ modTags) := by
      rw [List.length_take]
      constructor <;> (rintro ⟨hl, hm⟩; exact ⟨by omega, hm⟩)
    apply if_congr Iff.rfl rfl
    apply if_congr Iff.rfl rfl
    apply if_congr hs3m rfl
    apply if_congr hmod rfl
    apply if_congr Iff.rfl rfl
    exact if_congr Iff.rfl rfl rfl

/-! Short-file lemmas: each decoder abstains on inputs too short to carry
its signature or its first raising read. -/

theorem parse_xm_short {content : Bytes} (h : content.length < 17) :
    parse_xm (some content) = none := by
  have hf : ¬ (pyStartswith (pySlice content 0 80) (strB "Extended Module: ") = true) := by
    intro hb
    have hl := pyStartswith_length hb
    rw [pySlice_length] at hl
    have h17 : (strB "Extended Module: ").length = 17 := by decide
    rw [h17] at hl
    omega
  unfold parse_xm
  simp only [Option.some_bind]
  rw [if_neg hf]

theorem parse_it_short {content : Bytes} (h : content.length < 4) :
    parse_it (some content) = none := by
  have hf : ¬ (pyStartswith (pySlice content 0 192) (strB "IMPM") = true) := by
    intro hb
    have hl := pyStartswith_length hb
    rw [pySlice_length] at hl
    have h4 : (strB "IMPM").length = 4 := by decide
    rw [h4] at hl
    omega
  unfold parse_it
  simp only [Option.some_bind]
  rw [if_neg hf]

theorem parse_mod_short {content : Bytes} (h : content.length < 951) :
    parse_mod (some content) = none := by
  have hg : (pySlice content 0 1084).get? 950 = none := by
    rw [List.get?_eq_none, pySlice_length]
    omega
  unfold parse_mod
  simp only [Option.some_bind]
  rw [hg]
  rfl

theorem parse_s3m_short {content : Bytes} (h : content.length < 29) :
    parse_s3m (some content) = none := by
  have hg : (pySlice content 0 96).get? 28 = none := by
    rw [List.get?_eq_none, pySlice_length]
    omega
  unfold parse_s3m
  simp only [Option.some_bind]
  rw [hg]
  rfl

theorem parse_mptm_short {content : Bytes} (h : content.length < 4) :
    parse_mptm (some content) = none := by
  have hf1 : ¬ (pyStartswith (pySlice content 0 192) (strB "IMPM") = true) := by
    intro hb
    have hl := pyStartswith_length hb
    rw [pySlice_length] at hl
    have h4 : (strB "IMPM").length = 4 := by decide
    rw [h4] at hl
    omega
  have hf2 : ¬ (pyStartswith (pySlice content 0 192) (strB "mptm") = true) := by
    intro hb
    have hl := pyStartswith_length hb
    rw [pySlice_length] at hl
    have h4 : (strB "mptm").length = 4 := by decide
    rw [h4] at hl
    omega
  unfold parse_mptm
  simp only [Option.some_bind]
  rw [if_neg (by simp [hf1, hf2])]

theorem parse_ftm_short {content : Bytes} (h : content.length < 3) :
    parse_ftm (some content) = none := by
  have hf1 : ¬ (hasSub (pySlice content 0 100) (strB "FamiTracker") = true) := by
    intro hb
    have hl := hasSub_length hb
    rw [pySlice_length] at hl
    have h11 : (strB "FamiTracker").length = 11 := by decide
    rw [h11] at hl
    omega
  have hf2 : ¬ (hasSub (pySlice content 0 100) (strB "FTM") = true) := by
    intro hb
    have hl := hasSub_length hb
    rw [pySlice_length] at hl
    have h3 : (strB "FTM").length = 3 := by decide
    rw [h3] at hl
    omega
  unfold parse_ftm
  simp only [Option.some_bind]
  rw [if_neg (by simp [hf1, hf2])]

theorem parse_nsf_short {content : Bytes} (h : content.length < 4) :
    parse_nsf (some content) = none := by
  have hf1 : ¬ (pyStartswith (pySlice content 0 128) (strB "NESM\x1a") = true) := by
    intro hb
    have hl := pyStartswith_length hb
    rw [pySlice_length] at hl
    have h5 : (strB "NESM\x1a").length = 5 := by decide
    rw [h5] at hl
    omega
  have hf2 : ¬ (pyStartswith (pySlice content 0 128) (strB "NSFE") = true) := by
    intro hb
    have hl := pyStartswith_length hb
    rw [pySlice_length] at hl
    have h4 : (strB "NSFE").length = 4 := by decide
    rw [h4] at hl
    omega
  unfold parse_nsf
  simp only [Option.some_bind]
  rw [if_neg (by simp [hf1, hf2])]

theorem allNone_of_short {content : Bytes} (h : content.length < 3) :
    allNone (some content) := by
  refine ⟨parse_xm_short (by omega), parse_it_short (by omega), parse_mod_short (by omega),
    parse_s3m_short (by omega), parse_mptm_short (by omega), parse_ftm_short h,
    parse_nsf_short (by omega)⟩

/-! MOD decoder lemmas. -/

theorem parse_mod_total {content : Bytes} (h : 1084 ≤ content.length) :
    ∃ m, parse_mod (some content) = some m := by
  unfold parse_mod
  simp only [Option.some_bind]
  cases hg : (pySlice content 0 1084).get? 950 with
  | none =>
    exfalso
    have hn := List.get?_eq_none.mp hg
    rw [pySlice_length] at hn
    omega
  | some s =>
    simp only [Option.some_bind]
    by_cases hs : 0 < s
    · rw [if_pos hs]
      obtain ⟨mx, hmx⟩ :
          ∃ mx, listMax ((pySlice (pySlice content 0 1084) 952 1080).take s) = some mx := by
        cases hl : (pySlice (pySlice content 0 1084) 952 1080).take s with
        | cons a t => exact ⟨t.foldl max a, rfl⟩
        | nil =>
          exfalso
          have hlen := congrArg List.length hl
          rw [List.length_take, pySlice_length, pySlice_length] at hlen
          simp only [List.length_nil] at hlen
          omega
      rw [hmx]
      exact ⟨_, rfl⟩
    · rw [if_neg hs]
      exact ⟨_, rfl⟩

/-! Dispatcher helpers for the IMPM and S3M scenarios. -/

theorem extract_impm_it {content : Bytes} (ext : String) {m : Metadata}
    (himpm : pyStartswith content (strB "IMPM") = true)
    (hm : parse_it (some content) = some m) :
    dictGet (extract_tracker_format_metadata (some content) ext) "format" =
      some (.vStr "it") := by
  unfold extract_tracker_format_metadata
  rw [detect_impm himpm]
  simp only []
  rw [show parserFor "it" = some parse_it from rfl]
  simp only []
  rw [hm]
  simp only []
  by_cases hd : ("it" : String) ≠ ext
  · rw [if_pos hd, dictGet_dictSet_other _ _ _ _ (by decide)]
    exact (parse_it_shape hm).2.1
  · rw [if_neg hd]
    exact (parse_it_shape hm).2.1

theorem extractTier2_format_mptm {file : Option Bytes} {ext : String}
    (hfmt : dictGet (extractTier2 file ext) "format" = some (.vStr "mptm")) :
    ext = "mptm" := by
  unfold extractTier2 at hfmt
  cases hp : parserFor ext with
  | none =>
    rw [hp] at hfmt
    simp only [] at hfmt
    rw [show dictGet (stubRecord ext) "format" = some (.vStr ext) from rfl] at hfmt
    exact Val.vStr.inj (Option.some_inj.mp hfmt)
  | some p =>
    rw [hp] at hfmt
    simp only [] at hfmt
    cases hm2 : p file with
    | none =>
      rw [hm2] at hfmt
      simp only [] at hfmt
      rw [show dictGet (stubRecord ext) "format" = some (.vStr ext) from rfl] at hfmt
      exact Val.vStr.inj (Option.some_inj.mp hfmt)
    | some m2 =>
      rw [hm2] at hfmt
      simp only [] at hfmt
      rw [(parserFor_shape hp hm2).2] at hfmt
      exact Val.vStr.inj (Option.some_inj.mp hfmt)

theorem extract_s3m_note {content : Bytes} {m : Metadata}
    (hxm : pyStartswith content (strB "Extended Module: ") = false)
    (himpm : pyStartswith content (strB "IMPM") = false)
    (hdec : parse_s3m (some content) = some m) :
    extract_tracker_format_metadata (some content) "xm" =
      dictSet m "_note" (.vStr (noteText "xm" "s3m")) := by
  obtain ⟨h28, hscrm, hlen, -⟩ := parse_s3m_inv hdec
  unfold extract_tracker_format_metadata
  rw [detect_s3m hxm himpm h28 hscrm hlen]
  simp only []
  rw [show parserFor "s3m" = some parse_s3m from rfl]
  simp only []
  rw [hdec]
  simp only []
  rw [if_pos (by decide : ("s3m" : String) ≠ "xm")]

/-! The claims. -/

/-- C1: the dispatcher always returns a metadata record — a `format` key
is present for every file (including one whose read raises) and every
extension — and when all decoding tiers fail (all seven decoders abstain
on the file) it returns exactly the minimal stub record: format = the
lowercase extension, `format_long` from the static name table,
`source_format_version = "unknown"`, `tracker_tools = ["Unknown"]`. -/
theorem C1_dispatcher_total_and_stub :
    (∀ (file : Option Bytes) (ext : String),
      (dictGet (extract_tracker_format_metadata file ext) "format").isSome = true) ∧
    (∀ (file : Option Bytes) (ext : String), allNone file →
      extract_tracker_format_metadata file ext = stubRecord ext) := by
  constructor
  · intro file ext
    have h := extract_recOK file ext
    simp only [recOK, Bool.and_eq_true] at h
    exact h.1.2
  · intro file ext hall
    exact extract_eq_stub ext hall

/-- C1 witness: the empty file with extension `"xyz"`: every decoder
abstains and the dispatcher returns the stub. -/
theorem C1_witness :
    allNone (some ([] : Bytes)) ∧
    extract_tracker_format_metadata (some []) "xyz" = stubRecord "xyz" := by
  have hall : allNone (some ([] : Bytes)) :=
    ⟨by decide, by decide, by decide, by decide, by decide, by decide, by decide⟩
  exact ⟨hall, C1_dispatcher_total_and_stub.2 (some []) "xyz" hall⟩

/-- C2 as stated is false: the dispatcher emits `song_name = None` for an
IT file with an all-zero name field (a null value rather than an omitted
key), and an XM record contains the key `module_name` (with value `None`
here), which is not among the optional fields the claim lists. -/
theorem C2_counterexample :
    dictGet (extract_tracker_format_metadata (some itFile) "it") "song_name" =
      some Val.vNone ∧
    dictGet (extract_tracker_format_metadata (some xmDocFile) "xm") "module_name" =
      some Val.vNone := by decide

/-- C2 (amended): every dispatcher record has `format` and `format_long`
present and draws its keys from the spec's field list extended with the
XM decoder's `module_name`, `default_tempo` and `default_bpm`; a `None`
value occurs only on the string name fields `song_name`, `module_name`,
`artist`, `copyright` (when the decoded string is empty) — other
inapplicable fields are omitted. -/
theorem C2_record_shape (file : Option Bytes) (ext : String) :
    recOK (extract_tracker_format_metadata file ext) = true :=
  extract_recOK file ext

/-- C3 as stated is false: `impmS3mFile` satisfies the S3M byte layout
(byte 28 = `0x1A`, `"SCRM"` at 44..48, header decodable by the S3M
decoder) yet, because it also starts with `"IMPM"`, the earlier IT
signature check wins and the dispatcher reports `format = "it"`. -/
theorem C3_counterexample :
    (parse_s3m (some impmS3mFile)).isSome = true ∧
    dictGet (extract_tracker_format_metadata (some impmS3mFile) "xm") "format" =
      some (.vStr "it") := by decide

/-- C3 (amended): signature wins over extension provided no
higher-precedence signature matches: for every file that the S3M decoder
accepts and that starts with neither `"Extended Module: "` nor `"IMPM"`,
dispatching with extension `"xm"` yields `format = "s3m"` and a `_note`
recording the extension/format mismatch. -/
theorem C3_signature_wins {content : Bytes} {m : Metadata}
    (hxm : pyStartswith content (strB "Extended Module: ") = false)
    (himpm : pyStartswith content (strB "IMPM") = false)
    (hdec : parse_s3m (some content) = some m) :
    dictGet (extract_tracker_format_metadata (some content) "xm") "format" =
      some (.vStr "s3m") ∧
    dictGet (extract_tracker_format_metadata (some content) "xm") "_note" =
      some (.vStr "File has .xm extension but is actually S3M format") := by
  rw [extract_s3m_note hxm himpm hdec]
  constructor
  · rw [dictGet_dictSet_other _ _ _ _ (by decide)]
    exact (parse_s3m_shape hdec).2.1
  · rw [dictGet_dictSet_self]
    rfl

/-- C3 witness: `s3mFile` (a genuine S3M layout with no competing
signature) dispatched with extension `"xm"`. -/
theorem C3_witness :
    dictGet (extract_tracker_format_metadata (some s3mFile) "xm") "format" =
      some (.vStr "s3m") ∧
    dictGet (extract_tracker_format_metadata (some s3mFile) "xm") "_note" =
      some (.vStr "File has .xm extension but is actually S3M format") :=
  C3_signature_wins (by decide) (by decide) rfl

/-- C4 as stated is false: the 3-byte file `"FTM"` is far shorter than 80
bytes, yet the FTM decoder accepts it (its substring signature check
passes) and returns a record instead of `None`. -/
theorem C4_counterexample :
    (strB "FTM").length < 80 ∧ parse_ftm (some (strB "FTM")) ≠ none := by decide

/-- C4 (amended): for any file shorter than 3 bytes every one of the
seven decoders returns `None`, and the dispatcher falls back to the
extension-based stub without raising. (3 is sharp: the 3-byte file
`"FTM"` is accepted by the FTM decoder.) -/
theorem C4_short_files {content : Bytes} (h : content.length < 3) (ext : String) :
    allNone (some content) ∧
    extract_tracker_format_metadata (some content) ext = stubRecord ext := by
  have hall := allNone_of_short h
  exact ⟨hall, extract_eq_stub ext hall⟩

/-- C4 witness: the 2-byte file `[0, 1]` with extension `"mod"`. -/
theorem C4_witness :
    allNone (some ([0, 1] : Bytes)) ∧
    extract_tracker_format_metadata (some [0, 1]) "mod" = stubRecord "mod" :=
  C4_short_files (by decide) "mod"

/-- C5: the XM decoder mis-reads the documented layout. `xmDocFile`
conforms to the documented XM header with 4 channels declared at offset
68 (bytes `[4, 0]`) and song length 1 at offset 64, but the decoder
reports `channels = 1`: it takes the 16-bit word at file offset 64 — the
documented song-length field — as the channel count. -/
theorem C5_xm_channel_offset_bug :
    pySlice xmDocFile 68 70 = [4, 0] ∧
    pySlice xmDocFile 64 66 = [1, 0] ∧
    optGet (parse_xm (some xmDocFile)) "channels" = some (.vInt 1) := by decide

/-- C6: the signature detector coincides on every input with the spec's
algorithm (`detectSpec`): checks in the fixed order xm, it, s3m, mod
(buffer at least 1084 bytes only), ftm substring, nsf, first match
winning; `none` when nothing matches or the read raises. -/
theorem C6_detector_algorithm (file : Option Bytes) :
    detect_format_by_signature file = detectSpec file :=
  detect_eq_detectSpec file

/-- C7 as stated is false: on `s3mFile` the version word at offset 40 is
`0x1320` (4896), and the decoder renders `"1.320"` — major nibble
`0x1` via `>> 12`, minor `0x320` via `& 0xFFF` — not the byte-split
`"19.20"` that major `= word >> 8 = 0x13` would give. -/
theorem C7_counterexample :
    unpack16 (pySlice s3mFile 40 42) = some 4896 ∧
    optGet (parse_s3m (some s3mFile)) "source_format_version" = some (.vStr "1.320") ∧
    ("1.320" : String) ≠ "19.20" := by decide

/-- C7 (amended): for every file the S3M decoder accepts, the version
string is rendered from the little-endian word at offset 40 by a nibble
split: major = word >> 12, minor = word & 0xFFF as zero-padded lowercase
hex; the word 0x1320 yields major 1, not 0x13. -/
theorem C7_s3m_version_format {content : Bytes} {m : Metadata}
    (h : parse_s3m (some content) = some m) :
    ∃ version, unpack16 (pySlice (pySlice content 0 96) 40 42) = some version ∧
      dictGet m "source_format_version" =
        some (.vStr (toString (version / 4096) ++ "." ++ hex2 (version % 4096))) :=
  (parse_s3m_inv h).2.2.2

/-- C7 witness: the version field of `s3mFile` follows the nibble-split
rendering. -/
theorem C7_witness :
    ∃ m, parse_s3m (some s3mFile) = some m ∧
      ∃ version, unpack16 (pySlice (pySlice s3mFile 0 96) 40 42) = some version ∧
        dictGet m "source_format_version" =
          some (.vStr (toString (version / 4096) ++ "." ++ hex2 (version % 4096))) :=
  ⟨_, rfl, C7_s3m_version_format rfl⟩

/-- C8: for every MOD file of at least 1084 bytes whose song-length byte
at offset 950 is `s > 0`, the decoded `patterns` equals 1 plus the
maximum of the first `s` bytes of the pattern-order table at 952..1080. -/
theorem C8_mod_pattern_count (content : Bytes) (s o : Nat)
    (_hlen : 1084 ≤ content.length) (hs : content.get? 950 = some s) (hspos : 0 < s)
    (hmax : listMax ((pySlice content 952 1080).take s) = some o) :
    optGet (parse_mod (some content)) "patterns" = some (.vInt (o + 1)) := by
  have hle : (950 : Nat) < 1084 := by omega
  unfold parse_mod
  simp only [Option.some_bind]
  have hg : (pySlice content 0 1084).get? 950 = some s := by
    rw [pySlice_zero, List.get?_take hle]
    exact hs
  rw [hg]
  simp only [Option.some_bind]
  rw [if_pos hspos]
  have hsl : pySlice (pySlice content 0 1084) 952 1080 = pySlice content 952 1080 := by
    rw [pySlice_zero, pySlice_take _ _ (by omega : (1080 : Nat) ≤ 1084)]
  rw [hsl, hmax]
  rfl

set_option maxRecDepth 100000 in
/-- C8 witness: `modFile` has song length 3 and order bytes `[2, 0, 1]`,
so `patterns = 3`. -/
theorem C8_witness : optGet (parse_mod (some modFile)) "patterns" = some (.vInt 3) :=
  C8_mod_pattern_count modFile 3 2 (by decide) (by decide) (by decide) (by decide)

/-- C9: a buffer starting with `"IMPM"` is classified `it` by the
detector, never `mptm`; when IT decoding succeeds the dispatcher reports
`format = "it"`; and a record with `format = "mptm"` can only arise for
such a file through the extension tier — the IT decode attempt failed and
the extension is `"mptm"`. -/
theorem C9_impm_ambiguity (content : Bytes) (ext : String)
    (himpm : pyStartswith content (strB "IMPM") = true) :
    detect_format_by_signature (some content) = some "it" ∧
    (∀ m, parse_it (some content) = some m →
      dictGet (extract_tracker_format_metadata (some content) ext) "format" =
        some (.vStr "it")) ∧
    (dictGet (extract_tracker_format_metadata (some content) ext) "format" =
        some (.vStr "mptm") →
      parse_it (some content) = none ∧ ext = "mptm") := by
  refine ⟨detect_impm himpm, fun m hm => extract_impm_it ext himpm hm, fun hfmt => ?_⟩
  cases hit : parse_it (some content) with
  | some m =>
    exfalso
    have h2 := extract_impm_it ext himpm hit
    rw [h2] at hfmt
    have h3 := Val.vStr.inj (Option.some_inj.mp hfmt)
    exact absurd h3 (by decide)
  | none =>
    refine ⟨rfl, ?_⟩
    unfold extract_tracker_format_metadata at hfmt
    rw [detect_impm himpm] at hfmt
    simp only [] at hfmt
    rw [show parserFor "it" = some parse_it from rfl] at hfmt
    simp only [] at hfmt
    rw [hit] at hfmt
    simp only [] at hfmt
    exact extractTier2_format_mptm hfmt

/-- C9 witness: `itFile` (an `"IMPM"`-prefixed decodable IT file) is
detected and dispatched as `it`. -/
theorem C9_witness :
    detect_format_by_signature (some itFile) = some "it" ∧
    dictGet (extract_tracker_format_metadata (some itFile) "it") "format" =
      some (.vStr "it") := by
  have h := C9_impm_ambiguity itFile "it" (by decide)
  exact ⟨h.1, h.2.1 _ rfl⟩

/-- C10: the MOD decoder performs no signature validation: on every
content of at least 1084 bytes it returns a populated record, reported as
a ProTracker Module. -/
theorem C10_mod_no_validation (content : Bytes) (h : 1084 ≤ content.length) :
    (parse_mod (some content)).isSome = true ∧
    optGet (parse_mod (some content)) "format" = some (.vStr "mod") ∧
    optGet (parse_mod (some content)) "format_long" =
      some (.vStr "ProTracker Module") := by
  obtain ⟨m, hm⟩ := parse_mod_total h
  rw [hm]
  have hs := parse_mod_shape hm
  exact ⟨rfl, by simpa [optGet] using hs.2.1, by simpa [optGet] using hs.2.2⟩

set_option maxRecDepth 100000 in
/-- C10 witness: the 1084-byte `modFile` decodes to a MOD record. -/
theorem C10_witness :
    (parse_mod (some modFile)).isSome = true ∧
    optGet (parse_mod (some modFile)) "format" = some (.vStr "mod") ∧
    optGet (parse_mod (some modFile)) "format_long" =
      some (.vStr "ProTracker Module") :=
  C10_mod_no_validation modFile (by decide)

end TrackerFmt
